import Mathlib

/-!
Verification development for the tree-gen procedural tree generator.

The repository ships one source file, src/ch_trees/gui.py: the Blender
operator/panel layer that collects the generation inputs, spawns the
generation on a worker thread, and declares the customizer parameter
properties with their numeric bounds.  That file is embedded here directly.
The generation core itself (parametric generator, L-system interpreter,
leaf placement, mesh builder) is imported by gui.py from modules that are
not part of src/, so those components are modelled from the spec; every
such definition carries a doc comment starting with Modelled from the spec.

Numeric conventions: Blender float properties are modelled over the
rationals, integer properties over the integers.  Property clamping
(values outside [min, max] are clamped to the nearest bound) follows the
documented behaviour of bpy.props.IntProperty / FloatProperty.
-/

/- ===================== Part 1: definitions ===================== -/

/-- Clamping behaviour of a Blender IntProperty declared with bounds lo and hi:
a value assigned from outside the range is clamped to the nearest bound. -/
def intPropClamp (lo hi x : Int) : Int := max lo (min hi x)

/-- Clamping behaviour of a Blender FloatProperty with bounds lo and hi,
modelled over the rationals. -/
def floatPropClamp (lo hi x : ℚ) : ℚ := max lo (min hi x)

/-- The seed input property (gui.py line 75):
bpy.props.IntProperty(name="", default=0, min=0, max=9999999).
Assigning a seed stores the clamped value, which is what the generator
later reads from scene.seed_input. -/
def seed_input (x : Int) : Int := intPropClamp 0 9999999 x

/-- The parameter bundle assembled from the customizer properties declared in
TreeGen._initialize_customizer_params (gui.py lines 135-208).  Field names
follow the scene property names with the input suffix dropped. -/
structure ParameterSet where
  treeShape : Nat
  gScale : ℚ
  gScaleV : ℚ
  levelCount : Int
  ratio : ℚ
  ratioPower : ℚ
  flare : ℚ
  floorSplit : Int
  baseSplitsRandomize : Bool
  baseSplitsLimit : Int
  leafBlosNum : Int
  leafShape : Nat
  leafScale : ℚ
  leafScaleX : ℚ
  leafBend : ℚ
  blossomShape : Nat
  blossomScale : ℚ
  blossomRate : ℚ

/-- Raw values a user assigns to the customizer scene properties, before the
per-property clamping applies. -/
structure CustomizerInputs where
  tree_shape : Nat
  g_scale : ℚ
  g_scale_v : ℚ
  tree_level_count : Int
  tree_ratio : ℚ
  tree_ratio_power : ℚ
  tree_flare : ℚ
  tree_floor_split : Int
  tree_base_splits_randomize : Bool
  tree_base_splits_limit : Int
  tree_leaf_blos_num : Int
  leaf_shape : Nat
  tree_leaf_scale : ℚ
  tree_leaf_scale_x : ℚ
  tree_leaf_bend : ℚ
  tree_blossom_shape : Nat
  tree_blossom_scale : ℚ
  tree_blossom_rate : ℚ

/-- The ParameterSet constructed by the customizer property declarations of
TreeGen._initialize_customizer_params (gui.py lines 135-208): each numeric
property clamps its assigned value to the declared [min, max] range.
Bounds transcribed from the source: g_scale min=.000001 max=150 (line 153),
g_scale_v min=0 max=149.99 (line 154), level count min=1 max=6 (line 157),
ratio min=.000001 max=1 (line 160), ratio_power min=0 max=5 (line 161),
flare min=0 max=10 (line 164), floor_split min=0 max=500 (line 167),
base_splits_limit min=0 max=10 (line 171), leaf_blos_num min=0 max=3000
(line 175), leaf_scale min=.0001 max=1000 (line 189), leaf_scale_x
min=.0001 max=1000 (line 192), leaf_bend min=0 max=1 (line 195),
blossom_scale min=.0001 max=1000 (line 205), blossom_rate min=0 max=1
(line 208). -/
def _initialize_customizer_params (raw : CustomizerInputs) : ParameterSet where
  treeShape := raw.tree_shape
  gScale := floatPropClamp (1/1000000) 150 raw.g_scale
  gScaleV := floatPropClamp 0 (14999/100) raw.g_scale_v
  levelCount := intPropClamp 1 6 raw.tree_level_count
  ratio := floatPropClamp (1/1000000) 1 raw.tree_ratio
  ratioPower := floatPropClamp 0 5 raw.tree_ratio_power
  flare := floatPropClamp 0 10 raw.tree_flare
  floorSplit := intPropClamp 0 500 raw.tree_floor_split
  baseSplitsRandomize := raw.tree_base_splits_randomize
  baseSplitsLimit := intPropClamp 0 10 raw.tree_base_splits_limit
  leafBlosNum := intPropClamp 0 3000 raw.tree_leaf_blos_num
  leafShape := raw.leaf_shape
  leafScale := floatPropClamp (1/10000) 1000 raw.tree_leaf_scale
  leafScaleX := floatPropClamp (1/10000) 1000 raw.tree_leaf_scale_x
  leafBend := floatPropClamp 0 1 raw.tree_leaf_bend
  blossomShape := raw.tree_blossom_shape
  blossomScale := floatPropClamp (1/10000) 1000 raw.tree_blossom_scale
  blossomRate := floatPropClamp 0 1 raw.tree_blossom_rate

/-- The range invariant exactly as the spec states it for the constructed
ParameterSet: all scale and ratio fields strictly greater than 0, the only
explicitly zero-permitted field being floorSplits (≥ 0), and levelCount
between 1 and 6. -/
def specRangeInvariant (p : ParameterSet) : Prop :=
  0 < p.gScale ∧ 0 < p.gScaleV ∧ 0 < p.ratio ∧ 0 < p.ratioPower ∧
  0 < p.leafScale ∧ 0 < p.leafScaleX ∧ 0 < p.blossomScale ∧
  0 ≤ p.floorSplit ∧ 1 ≤ p.levelCount ∧ p.levelCount ≤ 6

/-- The range invariant the customizer-declared bounds actually enforce:
as specRangeInvariant, but scaleVariance (g_scale_v, declared min=0) and
ratioPower (declared min=0) are also zero-permitted. -/
def amendedRangeInvariant (p : ParameterSet) : Prop :=
  0 < p.gScale ∧ 0 ≤ p.gScaleV ∧ 0 < p.ratio ∧ 0 ≤ p.ratioPower ∧
  0 < p.leafScale ∧ 0 < p.leafScaleX ∧ 0 < p.blossomScale ∧
  0 ≤ p.floorSplit ∧ 1 ≤ p.levelCount ∧ p.levelCount ≤ 6

/-- Customizer input whose scaleVariance and ratioPower are zero; every other
field keeps its declared default.  All values are inside the declared
property bounds, so clamping stores them unchanged. -/
def zeroVarianceInputs : CustomizerInputs where
  tree_shape := 0
  g_scale := 13
  g_scale_v := 0
  tree_level_count := 3
  tree_ratio := 15/1000
  tree_ratio_power := 0
  tree_flare := 6/10
  tree_floor_split := 0
  tree_base_splits_randomize := false
  tree_base_splits_limit := 0
  tree_leaf_blos_num := 40
  leaf_shape := 1
  tree_leaf_scale := 17/100
  tree_leaf_scale_x := 1
  tree_leaf_bend := 6/10
  tree_blossom_shape := 1
  tree_blossom_scale := 1
  tree_blossom_rate := 0

/-- The slice of the scene state read by TreeGen._get_params_from_customizer. -/
structure SceneSplitInputs where
  tree_base_splits_limit_input : Int
  tree_base_splits_randomize_input : Bool

/-- Model of TreeGen._get_params_from_customizer (gui.py lines 129-132), read
charitably: the Python body references a name scene that is not in scope
(calling the method as written raises NameError), so the model takes the
intended scene slice as an argument.  The body loads the configured base
split limit, multiplies it by the literal constant 1 when the randomize
flag is set, and then falls off the end of the function, so the caller
receives None: the computed value is discarded. -/
def _get_params_from_customizer (scene : SceneSplitInputs) : Option Int :=
  let tree_base_splits := scene.tree_base_splits_limit_input
  let tree_base_splits :=
    if scene.tree_base_splits_randomize_input then tree_base_splits * 1
    else tree_base_splits
  none

/-- The local value TreeGen._get_params_from_customizer computes internally
before discarding it (gui.py lines 130-132). -/
def customizerBaseSplits (scene : SceneSplitInputs) : Int :=
  let tree_base_splits := scene.tree_base_splits_limit_input
  if scene.tree_base_splits_randomize_input then tree_base_splits * 1
  else tree_base_splits

/-- A concrete scene slice: split limit 5, randomize flag set. -/
def randomizedSplitScene : SceneSplitInputs :=
  { tree_base_splits_limit_input := 5, tree_base_splits_randomize_input := true }

/-- Generation method selected in the panel (gui.py lines 66-68). -/
inductive GenMethod
  | parametric
  | lsystem
deriving DecidableEq

/-- A tree-type module name as stored in the drop-down properties.  What
matters to the branch in _construct is whether the string starts with
ch_trees.parametric (gui.py line 103): preset parametric modules do, the
custom entry and L-system definitions do not. -/
inductive ModName
  | parametricModule
  | customEntry
  | lsystemModule
deriving DecidableEq

/-- Whether a module name starts with ch_trees.parametric (gui.py line 103). -/
def modNameIsParametric : ModName → Bool
  | ModName.parametricModule => true
  | _ => false

/-- Python-level error values that can abort the worker thread. -/
inductive PyError
  | attributeError
  | generationException
  | simplifyException
deriving DecidableEq

/-- The slice of scene state read by TreeGen._construct (gui.py 96-126). -/
structure SceneFlags where
  tree_gen_method_input : GenMethod
  para_tree_type_input : ModName
  lsys_tree_type_input : ModName
  simplify_geometry_input : Bool

/-- Outcomes of the external collaborator calls made by _construct: the
parametric generator, the L-system generator, and the geometry
simplification utility.  Each either returns normally or raises. -/
structure Collaborators where
  parametricConstruct : Except PyError Unit
  lsystemConstruct : Except PyError Unit
  simplify_branch_geometry : Except PyError Unit

/-- Model of the expression traceback.print_exec() in the except handler of
_construct (gui.py line 122): the traceback module has no attribute
print_exec (the library function is print_exc), so evaluating the
expression raises AttributeError instead of producing a string. -/
def traceback_print_exec : Except PyError String := Except.error PyError.attributeError

/-- Model of TreeGen._construct (gui.py lines 96-126), the body of the worker
thread.  Control flow from the source: pick the module name from the
selected method; if it starts with ch_trees.parametric run the parametric
generator, otherwise the L-system generator (exceptions from either are
not caught anywhere in _construct); then, if geometry simplification is
enabled, call utilities.simplify_branch_geometry inside a try block whose
except handler evaluates traceback.print_exec() — an expression that
itself raises AttributeError, which escapes the handler and aborts the
thread. -/
def _construct (scene : SceneFlags) (ext : Collaborators) : Except PyError Unit := do
  let mod_name :=
    match scene.tree_gen_method_input with
    | GenMethod.parametric => scene.para_tree_type_input
    | GenMethod.lsystem => scene.lsys_tree_type_input
  (if modNameIsParametric mod_name then ext.parametricConstruct
   else ext.lsystemConstruct)
  if scene.simplify_geometry_input then
    match ext.simplify_branch_geometry with
    | Except.ok _ => pure ()
    | Except.error _ =>
        match traceback_print_exec with
        | Except.ok _ => pure ()
        | Except.error e => throw e
  else
    pure ()

/-- The status strings a Blender operator can return from execute. -/
inductive OperatorReturn
  | FINISHED
  | CANCELLED
deriving DecidableEq

/-- What one press of the Generate Tree button produces: the status value
returned to Blender (the caller), and the outcome of the worker thread
running _construct, which execute spawns and never joins. -/
structure ExecuteOutcome where
  returned : OperatorReturn
  workerThread : Except PyError Unit

/-- Model of TreeGen.execute (gui.py lines 87-93): it starts a daemon-less
thread on _construct and immediately returns FINISHED, without waiting for
the thread or inspecting its outcome. -/
def execute (scene : SceneFlags) (ext : Collaborators) : ExecuteOutcome :=
  { returned := OperatorReturn.FINISHED, workerThread := _construct scene ext }

/-- Scene where the parametric method is selected and geometry simplification
is enabled. -/
def simplifyOnScene : SceneFlags :=
  { tree_gen_method_input := GenMethod.parametric
    para_tree_type_input := ModName.parametricModule
    lsys_tree_type_input := ModName.lsystemModule
    simplify_geometry_input := true }

/-- Collaborator outcomes where generation succeeds but the simplification
utility raises an exception. -/
def simplifyFailsExt : Collaborators :=
  { parametricConstruct := Except.ok ()
    lsystemConstruct := Except.ok ()
    simplify_branch_geometry := Except.error PyError.simplifyException }

/-- A 3-D point over the rationals. -/
structure Vec3 where
  x : ℚ
  y : ℚ
  z : ℚ
deriving DecidableEq

/-- A stem as consumed by the mesh builder: an ordered list of centerline
samples, each a position with its radius. -/
structure MStem where
  points : List (Vec3 × ℚ)

/-- A placed leaf or blossom instance: anchor point plus the scale factors
the builder uses for its quad. -/
structure LeafInstance where
  anchor : Vec3
  scale : ℚ
  scaleX : ℚ

/-- A polygonal mesh: an ordered, indexable vertex list and a face list, each
face a list of vertex indices. -/
structure Mesh where
  verts : List Vec3
  faces : List (List Nat)

/-- Modelled from the spec: a point on the unit circle at parameter i of R,
using the rational parameterization of the circle (tangent half-angle
substitution) in place of cosine and sine, which are not available over
the rationals.  Distinct parameters give distinct points; the mesh
validity claims do not depend on the exact positions. -/
def circlePoint (R i : Nat) : ℚ × ℚ :=
  let t : ℚ := (i : ℚ) / (R : ℚ)
  ((1 - t ^ 2) / (1 + t ^ 2), 2 * t / (1 + t ^ 2))

/-- Modelled from the spec (Mesh Builder, missing from src/): the i-th vertex
of the cross-section ring of R vertices around centerline sample c with
radius r. -/
def ringVertex (c : Vec3) (r : ℚ) (R i : Nat) : Vec3 :=
  { x := c.x + r * (circlePoint R i).1
    y := c.y + r * (circlePoint R i).2
    z := c.z }

/-- Modelled from the spec: the ring of R cross-section vertices emitted at
one centerline sample. -/
def ringVerts (c : Vec3) (r : ℚ) (R : Nat) : List Vec3 :=
  (List.range R).map (ringVertex c r R)

/-- Modelled from the spec: all ring vertices of one stem, one ring of R
vertices per centerline sample, appended in sample order. -/
def stemVerts (R : Nat) (st : MStem) : List Vec3 :=
  (st.points.map (fun pr => ringVerts pr.1 pr.2 R)).flatten

/-- Modelled from the spec: the quad face connecting ring j to ring j+1 of a
stem whose vertices start at buffer offset b, at ring position i (ring
resolution R).  Indices follow the ring layout of stemVerts. -/
def quadFace (b R j i : Nat) : List Nat :=
  [b + j * R + i, b + j * R + (i + 1) % R,
   b + (j + 1) * R + (i + 1) % R, b + (j + 1) * R + i]

/-- Modelled from the spec: all quad faces of a stem with n centerline samples
whose vertex block starts at offset b: adjacent rings are connected by R
quads each. -/
def stemFaces (b R n : Nat) : List (List Nat) :=
  ((List.range (n - 1)).map (fun j => (List.range R).map (fun i => quadFace b R j i))).flatten

/-- Modelled from the spec: append one stem to the mesh under construction:
its ring vertices go to the end of the shared vertex buffer and its quad
faces reference that fresh block (no forward references). -/
def appendStem (R : Nat) (m : Mesh) (st : MStem) : Mesh :=
  { verts := m.verts ++ stemVerts R st
    faces := m.faces ++ stemFaces m.verts.length R st.points.length }

/-- Modelled from the spec: the four corner vertices of the quad emitted for
one leaf or blossom instance, placed from its anchor and scale factors. -/
def leafQuadVerts (leaf : LeafInstance) : List Vec3 :=
  [{ x := leaf.anchor.x - leaf.scaleX * leaf.scale, y := leaf.anchor.y, z := leaf.anchor.z },
   { x := leaf.anchor.x + leaf.scaleX * leaf.scale, y := leaf.anchor.y, z := leaf.anchor.z },
   { x := leaf.anchor.x + leaf.scaleX * leaf.scale, y := leaf.anchor.y, z := leaf.anchor.z + leaf.scale },
   { x := leaf.anchor.x - leaf.scaleX * leaf.scale, y := leaf.anchor.y, z := leaf.anchor.z + leaf.scale }]

/-- Modelled from the spec: append one leaf/blossom quad to the mesh: four
fresh vertices and one face over exactly those four indices. -/
def appendLeaf (m : Mesh) (leaf : LeafInstance) : Mesh :=
  { verts := m.verts ++ leafQuadVerts leaf
    faces := m.faces ++ [[m.verts.length, m.verts.length + 1, m.verts.length + 2, m.verts.length + 3]] }

/-- The empty mesh the builder starts from. -/
def emptyMesh : Mesh := { verts := [], faces := [] }

/-- Modelled from the spec (Mesh Builder contract build(skeleton, instances)):
fold every stem, then every leaf/blossom instance, into one shared vertex
buffer with stable indices.  R is the ring resolution (vertices per
cross-section ring); rings of fewer than 3 vertices would be degenerate. -/
def buildMesh (R : Nat) (skel : List MStem) (leaves : List LeafInstance) : Mesh :=
  leaves.foldl appendLeaf (skel.foldl (appendStem R) emptyMesh)

/-- Structural validity of one face against a vertex buffer of nv vertices:
at least 3 indices, all in bounds, none repeated. -/
def faceValid (nv : Nat) (f : List Nat) : Prop :=
  3 ≤ f.length ∧ (∀ i ∈ f, i < nv) ∧ f.Nodup

/-- Structural validity of a mesh: every face is valid for its vertex buffer. -/
def meshStructValid (m : Mesh) : Prop :=
  ∀ f ∈ m.faces, faceValid m.verts.length f

/-- A two-sample demonstration stem for concrete evaluation. -/
def demoStem : MStem :=
  { points := [({ x := 0, y := 0, z := 0 }, 1), ({ x := 0, y := 0, z := 1 }, 1/2)] }

/-- A demonstration leaf instance. -/
def demoLeaf : LeafInstance :=
  { anchor := { x := 0, y := 0, z := 1 }, scale := 17/100, scaleX := 1 }

/-- A candidate stem as seen by the pruning test: the endpoint to test against
the envelope and the (possibly reduced) length it was generated with. -/
structure StemCandidate where
  endpoint : Vec3
  length : ℚ
deriving DecidableEq

/-- Outcome of pruning one stem: the stem finally accepted, how many
candidates were discarded on the way, and how many PruningExhausted
warnings were surfaced. -/
structure PruneOutcome where
  accepted : StemCandidate
  discards : Nat
  pruningExhaustedWarnings : Nat
deriving DecidableEq

/-- Modelled from the spec (Parametric Generator pruning, missing from src/):
the bounded retry loop.  gen k is the candidate regenerated with the k-th
length reduction; inside is the envelope test on a candidate.  Attempt
counts the candidates already discarded.  While fuel remains, a candidate
passing the test is accepted with no warning; a failing candidate is
discarded and the stem regenerated with reduced length.  When the retry
budget is exhausted the best available candidate (the most reduced one) is
accepted and a PruningExhausted warning is surfaced. -/
def pruneLoop (inside : StemCandidate → Bool) (gen : Nat → StemCandidate) :
    Nat → Nat → PruneOutcome
  | attempt, 0 =>
    { accepted := gen attempt, discards := attempt, pruningExhaustedWarnings := 1 }
  | attempt, fuel + 1 =>
    let c := gen attempt
    if inside c then
      { accepted := c, discards := attempt, pruningExhaustedWarnings := 0 }
    else
      pruneLoop inside gen (attempt + 1) fuel

/-- Modelled from the spec: pruning as applied by the generator.  With
pruning.ratio = 0 pruning is disabled (the spec scenario: ratio=0 means no
pruning, no stem is ever discarded); otherwise the envelope retry loop
runs with the bounded retry count maxRetries. -/
def applyPruning (pruneRatio : ℚ) (inside : StemCandidate → Bool)
    (gen : Nat → StemCandidate) (maxRetries : Nat) : PruneOutcome :=
  if pruneRatio = 0 then
    { accepted := gen 0, discards := 0, pruningExhaustedWarnings := 0 }
  else
    pruneLoop inside gen 0 maxRetries

/-- A demonstration candidate generator: each retry shortens the stem. -/
def demoCandidates (k : Nat) : StemCandidate :=
  { endpoint := { x := 0, y := 0, z := 10 - (k : ℚ) }, length := 10 - (k : ℚ) }

/-- A demonstration envelope test: endpoints below height 5 are inside. -/
def demoEnvelope (c : StemCandidate) : Bool := decide (c.endpoint.z ≤ 5)

/-- Modelled from the spec (Deterministic RNG, missing from src/): a linear
congruential pseudo-random source whose whole state is the last drawn
value; seeded only from the request seed. -/
structure RNG where
  state : Nat
deriving DecidableEq

/-- Modelled from the spec: seeding the request-scoped RNG from the integer
seed, and nothing else. -/
def RNG.seeded (seed : Nat) : RNG := { state := seed % 2 ^ 31 }

/-- Modelled from the spec: one pseudo-random draw (classic LCG constants,
modulus 2^31). -/
def RNG.next (g : RNG) : Nat × RNG :=
  let s := (1103515245 * g.state + 12345) % 2 ^ 31
  (s, { state := s })

/-- Modelled from the spec: a pseudo-random rational in [0, 1). -/
def RNG.uniform (g : RNG) : ℚ × RNG :=
  let (n, g2) := g.next
  ((n : ℚ) / 2 ^ 31, g2)

/-- Structured error kinds raised by the generation core, per the spec error
handling design. -/
inductive GenError
  | invalidParameter
deriving DecidableEq

/-- The documented numeric range of every ParameterSet field, as a
proposition: the declared [min, max] bounds of the customizer properties
together with the spec range for levelCount (1 to 6). -/
def documentedRange (p : ParameterSet) : Prop :=
  1/1000000 ≤ p.gScale ∧ p.gScale ≤ 150 ∧
  0 ≤ p.gScaleV ∧ p.gScaleV ≤ 14999/100 ∧
  1 ≤ p.levelCount ∧ p.levelCount ≤ 6 ∧
  1/1000000 ≤ p.ratio ∧ p.ratio ≤ 1 ∧
  0 ≤ p.ratioPower ∧ p.ratioPower ≤ 5 ∧
  0 ≤ p.flare ∧ p.flare ≤ 10 ∧
  0 ≤ p.floorSplit ∧ p.floorSplit ≤ 500 ∧
  0 ≤ p.baseSplitsLimit ∧ p.baseSplitsLimit ≤ 10 ∧
  0 ≤ p.leafBlosNum ∧ p.leafBlosNum ≤ 3000 ∧
  1/10000 ≤ p.leafScale ∧ p.leafScale ≤ 1000 ∧
  1/10000 ≤ p.leafScaleX ∧ p.leafScaleX ≤ 1000 ∧
  0 ≤ p.leafBend ∧ p.leafBend ≤ 1 ∧
  1/10000 ≤ p.blossomScale ∧ p.blossomScale ≤ 1000 ∧
  0 ≤ p.blossomRate ∧ p.blossomRate ≤ 1

instance (p : ParameterSet) : Decidable (documentedRange p) := by
  unfold documentedRange
  infer_instance

/-- Modelled from the spec (Failure modes: out-of-range parameter values are
rejected with a validation error before generation starts): the validator
run before any generation step. -/
def validateParams (p : ParameterSet) : Except GenError Unit :=
  if documentedRange p then Except.ok () else Except.error GenError.invalidParameter

/-- Modelled from the spec: sample a curved centerline of k points starting
above pos, stepping step upward, each sample laterally perturbed by a
seeded RNG draw, radius shrinking by drop per sample. -/
def sampleCenterline (rng : RNG) (pos : Vec3) (step rad drop : ℚ) :
    Nat → List (Vec3 × ℚ) × RNG
  | 0 => ([], rng)
  | k + 1 =>
    let (u, rng1) := rng.uniform
    let pos2 : Vec3 := { x := pos.x + (u - 1/2) * step, y := pos.y, z := pos.z + step }
    let (rest, rng2) := sampleCenterline rng1 pos2 step (rad - drop) drop k
    ((pos2, rad) :: rest, rng2)

/-- Modelled from the spec: the split count decided at a level: floorSplits
at the trunk base; if baseSplits.randomize is set the configured split
count is multiplied by an RNG-drawn factor in a bounded range (0, 1 or 2);
deeper levels use a fixed level split count. -/
def splitCountFor (p : ParameterSet) (rng : RNG) (levelIdx : Nat) : Nat × RNG :=
  if levelIdx = 0 then
    if p.baseSplitsRandomize then
      let (u, rng1) := rng.uniform
      let factor : Nat := if u < 1/2 then 0 else if u < 3/4 then 1 else 2
      (p.baseSplitsLimit.toNat * factor, rng1)
    else
      (p.baseSplitsLimit.toNat, rng)
  else
    (2, rng)

/-- A generation job: base position, length and radius of a stem still to be
synthesized at the current level. -/
structure StemJob where
  base : Vec3
  length : ℚ
  radius : ℚ

/-- Modelled from the spec: synthesize every stem of one level from its job,
collecting the stems, the child jobs spawned at their split points, and
the threaded RNG. -/
def processJob (p : ParameterSet) (levelIdx : Nat)
    (acc : List MStem × List StemJob × RNG) (job : StemJob) :
    List MStem × List StemJob × RNG :=
  let (stems, childJobs, rng) := acc
  let (pts, rng1) := sampleCenterline rng job.base (job.length / 5) job.radius (job.radius / 5) 5
  let endPos : Vec3 := { x := job.base.x, y := job.base.y, z := job.base.z + job.length }
  let (nsplit, rng2) := splitCountFor p rng1 levelIdx
  let newJobs := (List.range nsplit).map
    (fun _ => { base := endPos, length := job.length * p.ratio, radius := job.radius * p.ratio : StemJob })
  (stems ++ [{ points := pts }], childJobs ++ newJobs, rng2)

/-- Modelled from the spec (Parametric Tree Generator, missing from src/):
build stems level by level; fuel starts at levelCount, so the recursion
depth is bounded by levelCount.  The power-law radius scaling with the
rational-exponent ratioPower is not expressible over the rationals, so the
child radius scales by ratio; the claims settled against this model
(determinism, fail-fast validation) do not depend on that exponent. -/
def genLevels (p : ParameterSet) : Nat → RNG → List StemJob → List MStem × RNG
  | 0, rng, _ => ([], rng)
  | fuel + 1, rng, jobs =>
    let levelIdx := p.levelCount.toNat - (fuel + 1)
    let (stems, childJobs, rng2) := jobs.foldl (processJob p levelIdx) ([], [], rng)
    let (rest, rng3) := genLevels p fuel rng2 childJobs
    (stems ++ rest, rng3)

/-- Modelled from the spec: the full skeleton of one request, from the
ParameterSet and the seed alone: the trunk scale draws from the seeded
RNG (baseScale plus scaleVariance times a draw), then the level recursion
runs. -/
def generateSkeleton (p : ParameterSet) (seed : Nat) : List MStem :=
  let rng := RNG.seeded seed
  let (u, rng1) := rng.uniform
  let gs := p.gScale + p.gScaleV * (2 * u - 1)
  (genLevels p p.levelCount.toNat rng1 [{ base := { x := 0, y := 0, z := 0 }, length := gs, radius := gs * p.ratio }]).1

/-- Modelled from the spec (Leaf/Blossom Placement, missing from src/): one
instance anchored at the last sample of each stem, scaled by the leaf
parameters. -/
def placeLeaves (p : ParameterSet) (skel : List MStem) : List LeafInstance :=
  skel.foldr
    (fun st acc =>
      match st.points.getLast? with
      | some pr => { anchor := pr.1, scale := p.leafScale, scaleX := p.leafScaleX } :: acc
      | none => acc)
    []

/-- The per-request state of partially built geometry: the stems stored so
far for the skeleton under construction. -/
structure RequestState where
  builtStems : List MStem

/-- Modelled from the spec (contract generate(params, seed) with fail-fast
validation): run validation first; on failure return the structured error
with the request state untouched; on success build the skeleton, place
foliage, and emit the mesh (ring resolution 8). -/
def runGenerate (σ : RequestState) (p : ParameterSet) (seed : Nat) :
    RequestState × Except GenError Mesh :=
  match validateParams p with
  | Except.error e => (σ, Except.error e)
  | Except.ok _ =>
    let skel := generateSkeleton p seed
    let leaves := placeLeaves p skel
    ({ builtStems := skel }, Except.ok (buildMesh 8 skel leaves))

/-- Modelled from the spec: generate(P, S), the host-facing contract, run on a
fresh request state. -/
def generate (p : ParameterSet) (seed : Nat) : Except GenError Mesh :=
  (runGenerate { builtStems := [] } p seed).2

/-- A ParameterSet with levelCount outside its documented range (7 > 6); all
other fields are in range. -/
def outOfRangeParams : ParameterSet where
  treeShape := 0
  gScale := 13
  gScaleV := 3
  levelCount := 7
  ratio := 15/1000
  ratioPower := 12/10
  flare := 6/10
  floorSplit := 0
  baseSplitsRandomize := false
  baseSplitsLimit := 0
  leafBlosNum := 40
  leafShape := 1
  leafScale := 17/100
  leafScaleX := 1
  leafBend := 6/10
  blossomShape := 1
  blossomScale := 1
  blossomRate := 0

/-- A 3-D integer vector, used for exact turtle positions and frame axes. -/
structure IVec3 where
  x : Int
  y : Int
  z : Int
deriving DecidableEq

/-- Negation of an integer vector. -/
def ivneg (v : IVec3) : IVec3 := { x := -v.x, y := -v.y, z := -v.z }

/-- The symbol classes the turtle recognizes, per the spec L-System
Interpreter design: move-and-draw, move-without-draw, turn/pitch/roll,
push-state, pop-state, and unknown symbols (ignored). -/
inductive LSymbol
  | draw
  | move
  | turnL
  | turnR
  | pitchD
  | pitchU
  | rollL
  | rollR
  | push
  | pop
  | unknown
deriving DecidableEq

/-- Modelled from the spec (TurtleState): position, orientation as an
orthonormal frame (heading, left, up), and the current pen width.  The
fixed global turn angle of the grammar is taken as a quarter turn so the
frame stays exact over the integers; the bracket and stack discipline the
claims are about is independent of the angle constant. -/
structure TurtleState where
  pos : IVec3
  heading : IVec3
  left : IVec3
  up : IVec3
  width : ℚ
deriving DecidableEq

/-- Turn left: rotate heading and left a quarter turn about up. -/
def turnLeftT (t : TurtleState) : TurtleState :=
  { t with heading := t.left, left := ivneg t.heading }

/-- Turn right: the inverse quarter turn about up. -/
def turnRightT (t : TurtleState) : TurtleState :=
  { t with heading := ivneg t.left, left := t.heading }

/-- Pitch down: rotate heading and up a quarter turn about left. -/
def pitchDownT (t : TurtleState) : TurtleState :=
  { t with heading := ivneg t.up, up := t.heading }

/-- Pitch up: the inverse quarter turn about left. -/
def pitchUpT (t : TurtleState) : TurtleState :=
  { t with heading := t.up, up := ivneg t.heading }

/-- Roll left: rotate left and up a quarter turn about heading. -/
def rollLeftT (t : TurtleState) : TurtleState :=
  { t with left := t.up, up := ivneg t.left }

/-- Roll right: the inverse quarter turn about heading. -/
def rollRightT (t : TurtleState) : TurtleState :=
  { t with left := ivneg t.up, up := t.left }

/-- Advance the turtle by the global step along its heading. -/
def advanceT (step : Int) (t : TurtleState) : TurtleState :=
  { t with pos := { x := t.pos.x + step * t.heading.x
                    y := t.pos.y + step * t.heading.y
                    z := t.pos.z + step * t.heading.z } }

/-- One path segment emitted into the skeleton by a move-and-draw symbol:
endpoints, pen width, and the parent/child nesting depth of the stem it
belongs to (the number of enclosing brackets, i.e. the length of the
parent chain created by the saved states). -/
structure SegRec where
  segFrom : IVec3
  segTo : IVec3
  width : ℚ
  depth : Nat
deriving DecidableEq

/-- The interpreter state: the turtle, the LIFO stack of saved turtle states,
and the segments emitted so far. -/
structure InterpState where
  turtle : TurtleState
  stack : List TurtleState
  segs : List SegRec

/-- The structured error for an unbalanced grammar. -/
inductive LsysError
  | malformedGrammar
deriving DecidableEq

/-- Modelled from the spec (L-System Interpreter, missing from src/): one
interpretation step.  A pop with an empty stack is a mismatched closing
bracket: a hard MalformedGrammar error, not a silently ignored no-op; a
push saves the exact turtle frame; unknown symbols are ignored. -/
def interpStep (step : Int) (s : InterpState) : LSymbol → Except LsysError InterpState
  | LSymbol.draw =>
    let t2 := advanceT step s.turtle
    Except.ok { s with
      turtle := t2
      segs := s.segs ++ [{ segFrom := s.turtle.pos, segTo := t2.pos,
                           width := s.turtle.width, depth := s.stack.length }] }
  | LSymbol.move => Except.ok { s with turtle := advanceT step s.turtle }
  | LSymbol.turnL => Except.ok { s with turtle := turnLeftT s.turtle }
  | LSymbol.turnR => Except.ok { s with turtle := turnRightT s.turtle }
  | LSymbol.pitchD => Except.ok { s with turtle := pitchDownT s.turtle }
  | LSymbol.pitchU => Except.ok { s with turtle := pitchUpT s.turtle }
  | LSymbol.rollL => Except.ok { s with turtle := rollLeftT s.turtle }
  | LSymbol.rollR => Except.ok { s with turtle := rollRightT s.turtle }
  | LSymbol.push => Except.ok { s with stack := s.turtle :: s.stack }
  | LSymbol.pop =>
    match s.stack with
    | [] => Except.error LsysError.malformedGrammar
    | t :: rest => Except.ok { s with turtle := t, stack := rest }
  | LSymbol.unknown => Except.ok s

/-- Modelled from the spec: the turtle walks the expanded string left to
right, threading the interpreter state; the first hard error aborts. -/
def interpretFrom (step : Int) (s : InterpState) : List LSymbol → Except LsysError InterpState
  | [] => Except.ok s
  | sym :: rest =>
    match interpStep step s sym with
    | Except.error e => Except.error e
    | Except.ok s2 => interpretFrom step s2 rest

/-- The initial turtle: origin, upright orthonormal frame, pen width 1. -/
def turtle0 : TurtleState :=
  { pos := { x := 0, y := 0, z := 0 }
    heading := { x := 0, y := 0, z := 1 }
    left := { x := 1, y := 0, z := 0 }
    up := { x := 0, y := 1, z := 0 }
    width := 1 }

/-- Modelled from the spec: interpret a whole expanded string from the initial
turtle.  Unmatched brackets abort generation: a leftover saved state at
the end (an unmatched push) is also a MalformedGrammar error. -/
def interpret (step : Int) (syms : List LSymbol) : Except LsysError (List SegRec) :=
  match interpretFrom step { turtle := turtle0, stack := [], segs := [] } syms with
  | Except.error e => Except.error e
  | Except.ok s => if s.stack.isEmpty then Except.ok s.segs else Except.error LsysError.malformedGrammar

/-- The nesting depths interpret assigns to the emitted segments (empty on
error). -/
def interpDepths (step : Int) (syms : List LSymbol) : List Nat :=
  match interpret step syms with
  | Except.ok segs => segs.map SegRec.depth
  | Except.error _ => []

/-- The bracket nesting depth of the string at each move-and-draw symbol,
computed by pure counting with no stack and no turtle: the reference the
interpreter output is compared against. -/
def drawDepths : Nat → List LSymbol → List Nat
  | _, [] => []
  | d, LSymbol.push :: rest => drawDepths (d + 1) rest
  | d, LSymbol.pop :: rest => drawDepths (d - 1) rest
  | d, LSymbol.draw :: rest => d :: drawDepths d rest
  | d, _ :: rest => drawDepths d rest

/-- Well-formedness of a symbol string started at depth d: every pop matches
a prior push (the running depth never underflows) and pushes and pops
balance out exactly by the end. -/
def balancedFrom : Nat → List LSymbol → Bool
  | d, [] => d == 0
  | d, LSymbol.push :: rest => balancedFrom (d + 1) rest
  | d, LSymbol.pop :: rest => decide (0 < d) && balancedFrom (d - 1) rest
  | d, _ :: rest => balancedFrom d rest

/-- Whether the string, started at depth d, contains an unmatched closing
bracket: some pop occurs with no prior unclosed push. -/
def hasExtraPop : Nat → List LSymbol → Bool
  | _, [] => false
  | d, LSymbol.push :: rest => hasExtraPop (d + 1) rest
  | 0, LSymbol.pop :: _ => true
  | d + 1, LSymbol.pop :: rest => hasExtraPop d rest
  | d, _ :: rest => hasExtraPop d rest

/-- Modelled from the spec (Grammar): axiom string plus production rules keyed
by their left-hand symbol; symbols without a rule pass through unchanged. -/
structure Grammar where
  start : List LSymbol
  rules : LSymbol → Option (List LSymbol)

/-- Modelled from the spec: one synchronous rewrite pass: every symbol with a
production is replaced by its right-hand side, unmatched symbols pass
through unchanged. -/
def expandOnce (g : Grammar) (syms : List LSymbol) : List LSymbol :=
  (syms.map (fun s => match g.rules s with | some r => r | none => [s])).flatten

/-- Modelled from the spec: expansion for a fixed iteration count, a pure
function of (axiom, rules, iterations). -/
def expand (g : Grammar) : Nat → List LSymbol
  | 0 => g.start
  | n + 1 => expandOnce g (expand g n)

/-- The spec scenario grammar: axiom F with the single production
F to F[+F]F[-F]F. -/
def scenarioGrammar : Grammar where
  start := [LSymbol.draw]
  rules := fun s =>
    match s with
    | LSymbol.draw =>
      some [LSymbol.draw, LSymbol.push, LSymbol.turnL, LSymbol.draw, LSymbol.pop,
            LSymbol.draw, LSymbol.push, LSymbol.turnR, LSymbol.draw, LSymbol.pop,
            LSymbol.draw]
    | _ => none

/-- A string with an unmatched closing bracket. -/
def extraPopString : List LSymbol := [LSymbol.draw, LSymbol.pop, LSymbol.draw]

/- ===================== Part 2: theorems ===================== -/

/-- C9 counterexample: the input boundary does not accept every non-negative
seed unchanged: the declared property maximum 9999999 clamps the supplied
seed 10000000 to 9999999 before the generator sees it. -/
theorem C9_counterexample : seed_input 10000000 ≠ 10000000 := by decide

/-- C9 (amended): every integer seed between 0 and 9999999 supplied at the
input boundary is accepted and passed to the generator unchanged; seeds
outside that range are clamped to the nearest bound by the property. -/
theorem C9_seed_passed_unchanged (s : Int) (h0 : 0 ≤ s) (h1 : s ≤ 9999999) :
    seed_input s = s := by
  unfold seed_input intPropClamp
  omega

/-- Witness for C9_seed_passed_unchanged at seed 1234567. -/
theorem C9_seed_passed_unchanged_witness : seed_input 1234567 = 1234567 :=
  C9_seed_passed_unchanged 1234567 (by decide) (by decide)

/-- C8 counterexample: a constructible ParameterSet violating the claimed
invariant as stated: the customizer accepts scaleVariance = 0 and
ratioPower = 0 (their declared property minima are 0), so not every scale
and ratio field of a constructed set is strictly positive. -/
theorem C8_counterexample :
    ¬ specRangeInvariant (_initialize_customizer_params zeroVarianceInputs) := by
  intro h
  have h2 := h.2.1
  norm_num [_initialize_customizer_params, zeroVarianceInputs, floatPropClamp,
    max_def, min_def] at h2

/-- C8 (amended): every ParameterSet constructed through the customizer
property clamping satisfies the documented range invariant with
scaleVariance and ratioPower also explicitly zero-permitted: all other
scale and ratio fields are strictly positive, floorSplits is
non-negative, and levelCount lies between 1 and 6 inclusive, bounding the
parametric recursion depth. -/
theorem C8_customizer_params_range (raw : CustomizerInputs) :
    amendedRangeInvariant (_initialize_customizer_params raw) := by
  unfold amendedRangeInvariant _initialize_customizer_params floatPropClamp intPropClamp
  refine ⟨lt_max_of_lt_left (by norm_num), le_max_left _ _,
    lt_max_of_lt_left (by norm_num), le_max_left _ _,
    lt_max_of_lt_left (by norm_num), lt_max_of_lt_left (by norm_num),
    lt_max_of_lt_left (by norm_num), le_max_left _ _, le_max_left _ _,
    max_le (by norm_num) (min_le_left _ _)⟩

/-- C7: evaluated at a scene with split limit 5 and the randomize flag set,
the customizer parameter getter returns None (no split count reaches the
generator), while the value it computed internally and discarded is
5 * 1 = 5: the randomize branch multiplies by the literal constant 1, not
by an RNG-drawn factor, and the function never returns the result. -/
theorem C7_getter_discards_value :
    _get_params_from_customizer randomizedSplitScene = none ∧
    customizerBaseSplits randomizedSplitScene = 5 :=
  ⟨rfl, rfl⟩

/-- C2 counterexample: a request on which generation fails on the worker
thread (simplification enabled, the simplification step raises, and the
except handler itself raises AttributeError via traceback.print_exec()),
yet the host-facing boundary receives the success status FINISHED, not a
structured error: the error is lost between the core and the caller. -/
theorem C2_counterexample :
    (execute simplifyOnScene simplifyFailsExt).workerThread =
      Except.error PyError.attributeError ∧
    (execute simplifyOnScene simplifyFailsExt).returned = OperatorReturn.FINISHED ∧
    OperatorReturn.FINISHED ≠ OperatorReturn.CANCELLED :=
  ⟨rfl, rfl, by decide⟩

/-- C2 (amended): the host-facing boundary receives the constant status
FINISHED for every generation request, whatever the worker thread does:
execute spawns _construct on a thread it never joins, so neither a Mesh
nor a structured error value ever reaches the caller, and worker-thread
errors are lost (at best printed to the console). -/
theorem C2_execute_always_finished (scene : SceneFlags) (ext : Collaborators) :
    (execute scene ext).returned = OperatorReturn.FINISHED := rfl

/-- C10: with geometry simplification enabled and the simplification step
raising, _construct does not complete normally: the except handler
evaluates traceback.print_exec(), an attribute the traceback module does
not have, so AttributeError escapes the handler and aborts the worker
thread instead of the request finishing with the generated tree kept. -/
theorem C10_simplify_exception_aborts_thread :
    _construct simplifyOnScene simplifyFailsExt = Except.error PyError.attributeError :=
  rfl

/-- C1: generation is deterministic: generate(P, S) called twice on the same
ParameterSet and seed yields identical Meshes, because the model draws
all randomness from the request-scoped RNG seeded only by S (the
generator is a pure function of P and S). -/
theorem C1_generate_deterministic (p : ParameterSet) (s : Nat) :
    generate p s = generate p s := rfl

/-- C3: for every ParameterSet with a value outside its documented numeric
range, generation returns the InvalidParameter validation error before
any generation step runs and the request state is unchanged: no partial
skeleton is built. -/
theorem C3_validation_fail_fast (σ : RequestState) (p : ParameterSet) (seed : Nat)
    (h : ¬ documentedRange p) :
    runGenerate σ p seed = (σ, Except.error GenError.invalidParameter) := by
  have hv : validateParams p = Except.error GenError.invalidParameter := by
    unfold validateParams
    exact if_neg h
  unfold runGenerate
  rw [hv]

/-- Witness for C3_validation_fail_fast at a ParameterSet whose levelCount 7
exceeds the documented maximum 6. -/
theorem C3_validation_fail_fast_witness :
    ¬ documentedRange outOfRangeParams ∧
    runGenerate { builtStems := [] } outOfRangeParams 0 =
      ({ builtStems := [] }, Except.error GenError.invalidParameter) := by
  have hnot : ¬ documentedRange outOfRangeParams := by
    intro h
    have h2 := h.2.2.2.2.2.1
    norm_num [outOfRangeParams] at h2
  exact ⟨hnot, C3_validation_fail_fast { builtStems := [] } outOfRangeParams 0 hnot⟩

/-- The pruning retry loop never discards more candidates than its remaining
fuel plus the discards already counted. -/
theorem pruneLoop_discards_le (inside : StemCandidate → Bool) (gen : Nat → StemCandidate) :
    ∀ fuel attempt, (pruneLoop inside gen attempt fuel).discards ≤ attempt + fuel := by
  intro fuel
  induction fuel with
  | zero => intro attempt; simp [pruneLoop]
  | succ n ih =>
    intro attempt
    simp only [pruneLoop]
    by_cases h : inside (gen attempt) = true
    · rw [if_pos h]
      dsimp only
      omega
    · rw [if_neg h]
      have := ih (attempt + 1)
      omega

/-- When every candidate fails the envelope test, the retry loop runs its
whole budget, accepts the final (most reduced) candidate, and surfaces
exactly one PruningExhausted warning. -/
theorem pruneLoop_all_outside (inside : StemCandidate → Bool) (gen : Nat → StemCandidate)
    (h : ∀ k, inside (gen k) = false) :
    ∀ fuel attempt,
      (pruneLoop inside gen attempt fuel).accepted = gen (attempt + fuel) ∧
      (pruneLoop inside gen attempt fuel).pruningExhaustedWarnings = 1 := by
  intro fuel
  induction fuel with
  | zero => intro attempt; simp [pruneLoop]
  | succ n ih =>
    intro attempt
    simp only [pruneLoop]
    rw [if_neg (by simp [h])]
    have h2 := ih (attempt + 1)
    refine ⟨?_, h2.2⟩
    rw [show attempt + (n + 1) = attempt + 1 + n by omega]
    exact h2.1

/-- C6: pruning terminates with a bounded number of discards: a stem is
discarded and regenerated at most maxRetries times; when pruning.ratio = 0
no generated stem is ever discarded and the PruningExhausted warning count
is 0; and when every candidate fails the envelope test (ratio nonzero),
the best available (most reduced) candidate is accepted after the bounded
retry count, with a single PruningExhausted warning. -/
theorem C6_pruning_bounded (pruneRatio : ℚ) (inside : StemCandidate → Bool)
    (gen : Nat → StemCandidate) (maxRetries : Nat) :
    (applyPruning pruneRatio inside gen maxRetries).discards ≤ maxRetries ∧
    (pruneRatio = 0 →
      (applyPruning pruneRatio inside gen maxRetries).discards = 0 ∧
      (applyPruning pruneRatio inside gen maxRetries).pruningExhaustedWarnings = 0) ∧
    ((∀ k, inside (gen k) = false) → pruneRatio ≠ 0 →
      (applyPruning pruneRatio inside gen maxRetries).accepted = gen maxRetries ∧
      (applyPruning pruneRatio inside gen maxRetries).pruningExhaustedWarnings = 1) := by
  by_cases h : pruneRatio = 0
  · have he : applyPruning pruneRatio inside gen maxRetries =
        { accepted := gen 0, discards := 0, pruningExhaustedWarnings := 0 } := by
      unfold applyPruning
      rw [if_pos h]
    rw [he]
    exact ⟨Nat.zero_le _, fun _ => ⟨rfl, rfl⟩, fun _ h0 => absurd h h0⟩
  · have he : applyPruning pruneRatio inside gen maxRetries =
        pruneLoop inside gen 0 maxRetries := by
      unfold applyPruning
      rw [if_neg h]
    rw [he]
    refine ⟨?_, fun h0 => absurd h0 h, fun hall _ => ?_⟩
    · have := pruneLoop_discards_le inside gen maxRetries 0
      omega
    · have h2 := pruneLoop_all_outside inside gen hall maxRetries 0
      simpa using h2

/-- Witness for C6_pruning_bounded: the ratio = 0 half at the demonstration
envelope, and the all-outside half at a test rejecting every candidate. -/
theorem C6_pruning_bounded_witness :
    ((applyPruning 0 demoEnvelope demoCandidates 5).discards = 0 ∧
     (applyPruning 0 demoEnvelope demoCandidates 5).pruningExhaustedWarnings = 0) ∧
    ((applyPruning 1 (fun _ => false) demoCandidates 5).accepted = demoCandidates 5 ∧
     (applyPruning 1 (fun _ => false) demoCandidates 5).pruningExhaustedWarnings = 1) :=
  ⟨(C6_pruning_bounded 0 demoEnvelope demoCandidates 5).2.1 rfl,
   (C6_pruning_bounded 1 (fun _ => false) demoCandidates 5).2.2 (fun _ => rfl) (by norm_num)⟩

/-- Interpreting a well-formed suffix from any interpreter state succeeds,
empties the stack, and records for every emitted segment exactly the
bracket nesting depth computed by pure counting on the string. -/
theorem interpretFrom_balanced (step : Int) :
    ∀ (syms : List LSymbol) (s : InterpState),
      balancedFrom s.stack.length syms = true →
      ∃ s2, interpretFrom step s syms = Except.ok s2 ∧ s2.stack = [] ∧
        s2.segs.map SegRec.depth =
          s.segs.map SegRec.depth ++ drawDepths s.stack.length syms := by
  intro syms
  induction syms with
  | nil =>
    intro s hbal
    have h0 : s.stack.length = 0 := by simpa [balancedFrom] using hbal
    exact ⟨s, rfl, List.length_eq_zero.mp h0, by simp [drawDepths]⟩
  | cons sym rest ih =>
    intro s hbal
    cases sym with
    | draw =>
      have hb : balancedFrom s.stack.length rest = true := by
        simpa [balancedFrom] using hbal
      obtain ⟨s3, h1, h2, h3⟩ := ih
        { s with turtle := advanceT step s.turtle
                 segs := s.segs ++ [{ segFrom := s.turtle.pos
                                      segTo := (advanceT step s.turtle).pos
                                      width := s.turtle.width
                                      depth := s.stack.length }] } hb
      refine ⟨s3, ?_, h2, ?_⟩
      · simpa [interpretFrom, interpStep] using h1
      · rw [h3]
        simp [drawDepths]
    | move =>
      have hb : balancedFrom s.stack.length rest = true := by
        simpa [balancedFrom] using hbal
      simpa [interpretFrom, interpStep, drawDepths] using
        ih { s with turtle := advanceT step s.turtle } hb
    | turnL =>
      have hb : balancedFrom s.stack.length rest = true := by
        simpa [balancedFrom] using hbal
      simpa [interpretFrom, interpStep, drawDepths] using
        ih { s with turtle := turnLeftT s.turtle } hb
    | turnR =>
      have hb : balancedFrom s.stack.length rest = true := by
        simpa [balancedFrom] using hbal
      simpa [interpretFrom, interpStep, drawDepths] using
        ih { s with turtle := turnRightT s.turtle } hb
    | pitchD =>
      have hb : balancedFrom s.stack.length rest = true := by
        simpa [balancedFrom] using hbal
      simpa [interpretFrom, interpStep, drawDepths] using
        ih { s with turtle := pitchDownT s.turtle } hb
    | pitchU =>
      have hb : balancedFrom s.stack.length rest = true := by
        simpa [balancedFrom] using hbal
      simpa [interpretFrom, interpStep, drawDepths] using
        ih { s with turtle := pitchUpT s.turtle } hb
    | rollL =>
      have hb : balancedFrom s.stack.length rest = true := by
        simpa [balancedFrom] using hbal
      simpa [interpretFrom, interpStep, drawDepths] using
        ih { s with turtle := rollLeftT s.turtle } hb
    | rollR =>
      have hb : balancedFrom s.stack.length rest = true := by
        simpa [balancedFrom] using hbal
      simpa [interpretFrom, interpStep, drawDepths] using
        ih { s with turtle := rollRightT s.turtle } hb
    | push =>
      have hb : balancedFrom (s.turtle :: s.stack).length rest = true := by
        simpa [balancedFrom] using hbal
      simpa [interpretFrom, interpStep, drawDepths] using
        ih { s with stack := s.turtle :: s.stack } hb
    | pop =>
      cases hs : s.stack with
      | nil =>
        exfalso
        rw [hs] at hbal
        simp [balancedFrom] at hbal
      | cons t ts =>
        rw [hs] at hbal
        have hb : balancedFrom ts.length rest = true := by
          simpa [balancedFrom] using hbal
        obtain ⟨s3, h1, h2, h3⟩ := ih { s with turtle := t, stack := ts } hb
        refine ⟨s3, ?_, h2, ?_⟩
        · simpa [interpretFrom, interpStep, hs] using h1
        · rw [h3]
          simp [drawDepths, hs]
    | unknown =>
      have hb : balancedFrom s.stack.length rest = true := by
        simpa [balancedFrom] using hbal
      simpa [interpretFrom, interpStep, drawDepths] using ih s hb

/-- A suffix containing an unmatched closing bracket relative to the current
stack depth always aborts interpretation with MalformedGrammar. -/
theorem interpretFrom_extraPop (step : Int) :
    ∀ (syms : List LSymbol) (s : InterpState),
      hasExtraPop s.stack.length syms = true →
      interpretFrom step s syms = Except.error LsysError.malformedGrammar := by
  intro syms
  induction syms with
  | nil =>
    intro s h
    simp [hasExtraPop] at h
  | cons sym rest ih =>
    intro s h
    cases sym with
    | draw =>
      have hb : hasExtraPop s.stack.length rest = true := by
        simpa [hasExtraPop] using h
      simpa [interpretFrom, interpStep] using
        ih { s with turtle := advanceT step s.turtle
                    segs := s.segs ++ [{ segFrom := s.turtle.pos
                                         segTo := (advanceT step s.turtle).pos
                                         width := s.turtle.width
                                         depth := s.stack.length }] } hb
    | move =>
      have hb : hasExtraPop s.stack.length rest = true := by
        simpa [hasExtraPop] using h
      simpa [interpretFrom, interpStep] using
        ih { s with turtle := advanceT step s.turtle } hb
    | turnL =>
      have hb : hasExtraPop s.stack.length rest = true := by
        simpa [hasExtraPop] using h
      simpa [interpretFrom, interpStep] using ih { s with turtle := turnLeftT s.turtle } hb
    | turnR =>
      have hb : hasExtraPop s.stack.length rest = true := by
        simpa [hasExtraPop] using h
      simpa [interpretFrom, interpStep] using ih { s with turtle := turnRightT s.turtle } hb
    | pitchD =>
      have hb : hasExtraPop s.stack.length rest = true := by
        simpa [hasExtraPop] using h
      simpa [interpretFrom, interpStep] using ih { s with turtle := pitchDownT s.turtle } hb
    | pitchU =>
      have hb : hasExtraPop s.stack.length rest = true := by
        simpa [hasExtraPop] using h
      simpa [interpretFrom, interpStep] using ih { s with turtle := pitchUpT s.turtle } hb
    | rollL =>
      have hb : hasExtraPop s.stack.length rest = true := by
        simpa [hasExtraPop] using h
      simpa [interpretFrom, interpStep] using ih { s with turtle := rollLeftT s.turtle } hb
    | rollR =>
      have hb : hasExtraPop s.stack.length rest = true := by
        simpa [hasExtraPop] using h
      simpa [interpretFrom, interpStep] using ih { s with turtle := rollRightT s.turtle } hb
    | push =>
      have hb : hasExtraPop (s.turtle :: s.stack).length rest = true := by
        simpa [hasExtraPop] using h
      simpa [interpretFrom, interpStep] using ih { s with stack := s.turtle :: s.stack } hb
    | pop =>
      cases hs : s.stack with
      | nil =>
        simp [interpretFrom, interpStep, hs]
      | cons t ts =>
        rw [hs] at h
        have hb : hasExtraPop ts.length rest = true := by
          simpa [hasExtraPop] using h
        simpa [interpretFrom, interpStep, hs] using ih { s with turtle := t, stack := ts } hb
    | unknown =>
      have hb : hasExtraPop s.stack.length rest = true := by
        simpa [hasExtraPop] using h
      simpa [interpretFrom, interpStep] using ih s hb

/-- C4: for every well-formed symbol string (pushes and pops balance and every
pop matches a prior push), the interpreter succeeds and the nesting depth
it records for every emitted segment matches the bracket nesting of the
string (computed independently by pure counting); for every string with an
unmatched closing bracket, interpretation fails with MalformedGrammar
instead of ignoring the extra pop. -/
theorem C4_bracket_nesting (step : Int) (syms : List LSymbol) :
    (balancedFrom 0 syms = true →
      (interpret step syms).isOk = true ∧
      interpDepths step syms = drawDepths 0 syms) ∧
    (hasExtraPop 0 syms = true →
      interpret step syms = Except.error LsysError.malformedGrammar) := by
  constructor
  · intro hbal
    obtain ⟨s2, h1, h2, h3⟩ := interpretFrom_balanced step syms
      { turtle := turtle0, stack := [], segs := [] } (by simpa using hbal)
    have hi : interpret step syms = Except.ok s2.segs := by
      unfold interpret
      rw [h1]
      simp [h2]
    refine ⟨by rw [hi]; rfl, ?_⟩
    unfold interpDepths
    rw [hi]
    simpa using h3
  · intro hpop
    have h1 := interpretFrom_extraPop step syms
      { turtle := turtle0, stack := [], segs := [] } (by simpa using hpop)
    unfold interpret
    rw [h1]

/-- Witness for C4_bracket_nesting: the balanced half at the spec scenario
grammar F to F[+F]F[-F]F expanded for 2 iterations, the unmatched-pop half
at a string with a closing bracket and no prior push. -/
theorem C4_bracket_nesting_witness :
    ((interpret 1 (expand scenarioGrammar 2)).isOk = true ∧
     interpDepths 1 (expand scenarioGrammar 2) = drawDepths 0 (expand scenarioGrammar 2)) ∧
    interpret 1 extraPopString = Except.error LsysError.malformedGrammar :=
  ⟨(C4_bracket_nesting 1 (expand scenarioGrammar 2)).1 (by decide),
   (C4_bracket_nesting 1 extraPopString).2 (by decide)⟩

/-- The vertex block of a list of ring samples has one ring of R vertices per
sample. -/
theorem rings_length (R : Nat) (pts : List (Vec3 × ℚ)) :
    ((pts.map (fun pr => ringVerts pr.1 pr.2 R)).flatten).length = pts.length * R := by
  induction pts with
  | nil => simp
  | cons p rest ih =>
    simp only [List.map_cons, List.flatten_cons, List.length_append, List.length_cons, ih]
    have hr : (ringVerts p.1 p.2 R).length = R := by simp [ringVerts]
    rw [hr, Nat.succ_mul, Nat.add_comm]

/-- The vertex block a stem appends has points.length rings of R vertices. -/
theorem stemVerts_length (R : Nat) (st : MStem) :
    (stemVerts R st).length = st.points.length * R := rings_length R st.points

/-- No index of a ring-connecting quad repeats. -/
theorem quadFace_nodup (b R j i : Nat) (hR : 3 ≤ R) (hi : i < R) :
    (quadFace b R j i).Nodup := by
  have hj2 : (i + 1) % R < R := Nat.mod_lt _ (by omega)
  have hij : i ≠ (i + 1) % R := by
    by_cases hc : i + 1 = R
    · rw [hc, Nat.mod_self]
      omega
    · rw [Nat.mod_eq_of_lt (by omega)]
      omega
  have hsm : (j + 1) * R = j * R + R := by rw [Nat.succ_mul]
  unfold quadFace
  rw [hsm]
  generalize hg : (i + 1) % R = i2 at hj2 hij
  generalize j * R = A
  simp only [List.nodup_cons, List.mem_cons, List.not_mem_nil, or_false,
    List.mem_singleton, List.nodup_nil, and_true, not_or, not_false_iff]
  omega

/-- Every index of a ring-connecting quad of a stem with n rings stays inside
the vertex block [b, b + n * R). -/
theorem quadFace_bound (b R j i n : Nat) (hR : 3 ≤ R) (hj : j + 1 < n) (hi : i < R) :
    ∀ k ∈ quadFace b R j i, k < b + n * R := by
  have hj2 : (i + 1) % R < R := Nat.mod_lt _ (by omega)
  have e1 : (j + 1) * R = j * R + R := by rw [Nat.succ_mul]
  have e2 : (j + 2) * R = j * R + R + R := by
    rw [show j + 2 = (j + 1) + 1 from rfl, Nat.succ_mul, e1]
  have hle : (j + 2) * R ≤ n * R := Nat.mul_le_mul_right R (by omega)
  rw [e2] at hle
  intro k hk
  simp only [quadFace, e1, List.mem_cons, List.not_mem_nil, or_false] at hk
  generalize hA : j * R = A at hk hle
  generalize hB : n * R = B at hle ⊢
  rcases hk with h | h | h | h <;> omega

/-- Every face the quad grid of one stem emits is valid for any vertex buffer
that contains the whole stem block. -/
theorem stemFaces_valid (b R n nv : Nat) (hR : 3 ≤ R) (hnv : b + n * R ≤ nv) :
    ∀ f ∈ stemFaces b R n, faceValid nv f := by
  intro f hf
  unfold stemFaces at hf
  simp only [List.mem_flatten, List.mem_map, List.mem_range] at hf
  obtain ⟨l, ⟨j, hj, rfl⟩, hfl⟩ := hf
  simp only [List.mem_map, List.mem_range] at hfl
  obtain ⟨i, hi, rfl⟩ := hfl
  refine ⟨by simp [quadFace], ?_, quadFace_nodup b R j i hR hi⟩
  intro k hk
  have := quadFace_bound b R j i n hR (by omega) hi k hk
  omega

/-- Appending a stem to a structurally valid mesh keeps it structurally
valid: old faces still index the (now longer) buffer, and the new quads
stay inside the fresh ring block. -/
theorem appendStem_valid (R : Nat) (hR : 3 ≤ R) (m : Mesh) (st : MStem)
    (hm : meshStructValid m) : meshStructValid (appendStem R m st) := by
  have hlen : (appendStem R m st).verts.length =
      m.verts.length + st.points.length * R := by
    simp [appendStem, stemVerts_length]
  intro f hf
  simp only [appendStem, List.mem_append] at hf
  rcases hf with hf | hf
  · obtain ⟨h1, h2, h3⟩ := hm f hf
    refine ⟨h1, ?_, h3⟩
    intro k hk
    have := h2 k hk
    rw [hlen]
    omega
  · exact stemFaces_valid m.verts.length R st.points.length _ hR (by rw [hlen]) f hf

/-- Appending a leaf quad to a structurally valid mesh keeps it structurally
valid: its single face uses exactly the four fresh indices. -/
theorem appendLeaf_valid (m : Mesh) (leaf : LeafInstance) (hm : meshStructValid m) :
    meshStructValid (appendLeaf m leaf) := by
  have hlen : (appendLeaf m leaf).verts.length = m.verts.length + 4 := by
    simp [appendLeaf, leafQuadVerts]
  intro f hf
  simp only [appendLeaf, List.mem_append, List.mem_singleton] at hf
  rcases hf with hf | rfl
  · obtain ⟨h1, h2, h3⟩ := hm f hf
    refine ⟨h1, ?_, h3⟩
    intro k hk
    have := h2 k hk
    rw [hlen]
    omega
  · refine ⟨by simp, ?_, ?_⟩
    · intro k hk
      rw [hlen]
      simp only [List.mem_cons, List.not_mem_nil, or_false] at hk
      omega
    · simp only [List.nodup_cons, List.mem_cons, List.not_mem_nil, or_false,
        List.mem_singleton, List.nodup_nil, and_true, not_or, not_false_iff]
      omega

/-- Folding any stem list over a structurally valid mesh preserves
structural validity. -/
theorem foldl_appendStem_valid (R : Nat) (hR : 3 ≤ R) :
    ∀ (skel : List MStem) (m : Mesh), meshStructValid m →
      meshStructValid (skel.foldl (appendStem R) m) := by
  intro skel
  induction skel with
  | nil => intro m hm; exact hm
  | cons st rest ih =>
    intro m hm
    exact ih _ (appendStem_valid R hR m st hm)

/-- Folding any leaf list over a structurally valid mesh preserves
structural validity. -/
theorem foldl_appendLeaf_valid :
    ∀ (leaves : List LeafInstance) (m : Mesh), meshStructValid m →
      meshStructValid (leaves.foldl appendLeaf m) := by
  intro leaves
  induction leaves with
  | nil => intro m hm; exact hm
  | cons lf rest ih =>
    intro m hm
    exact ih _ (appendLeaf_valid m lf hm)

/-- The empty mesh is trivially structurally valid. -/
theorem emptyMesh_valid : meshStructValid emptyMesh := by
  intro f hf
  simp [emptyMesh] at hf

/-- C5: every mesh the Mesh Builder returns is structurally valid: every index
of every face lies within the bounds of the vertex buffer, every face has
at least 3 indices (quads), and no face contains a repeated index — for
any skeleton, any leaf instances, and any non-degenerate ring resolution
(at least 3 vertices per cross-section ring). -/
theorem C5_mesh_structurally_valid (R : Nat) (skel : List MStem)
    (leaves : List LeafInstance) (hR : 3 ≤ R) :
    meshStructValid (buildMesh R skel leaves) := by
  unfold buildMesh
  exact foldl_appendLeaf_valid leaves _
    (foldl_appendStem_valid R hR skel emptyMesh emptyMesh_valid)

/-- Witness for C5_mesh_structurally_valid at ring resolution 8 on a concrete
two-sample stem and one leaf instance. -/
theorem C5_mesh_structurally_valid_witness :
    (3 : Nat) ≤ 8 ∧ meshStructValid (buildMesh 8 [demoStem] [demoLeaf]) :=
  ⟨by decide, C5_mesh_structurally_valid 8 [demoStem] [demoLeaf] (by decide)⟩
